import Mathlib

/-
Verification of the OLS linear-regression estimator
(src/ml_core/linear_models/linear_regression.py) against its specification.

Matrices and vectors are embedded over ℚ (exact arithmetic standing in for
IEEE doubles).  The fit procedure works on shape-indexed `Matrix (Fin m)
(Fin p) ℚ`; the mutable object state (`x_`, `y_`, `betas_`, ...) is mirrored
by an explicit `Model` record whose matrix-valued fields are stored as
`List (List ℚ)`, matching numpy's dynamically shaped arrays.
-/

namespace MLCore

open Matrix

/-- Computable cofactor (Laplace) expansion of the determinant along row 0;
used to give an executable counterpart of `np.linalg.inv` / `np.linalg.svd`
based checks. -/
def myDet : {n : ℕ} → Matrix (Fin n) (Fin n) ℚ → ℚ
  | 0, _ => 1
  | n + 1, A =>
    ∑ j : Fin (n + 1),
      (-1) ^ (j : ℕ) * A 0 j * myDet (A.submatrix Fin.succ j.succAbove)

/-- Computable adjugate via cofactors. -/
def myAdjugate : {n : ℕ} → Matrix (Fin n) (Fin n) ℚ → Matrix (Fin n) (Fin n) ℚ
  | 0, A => A
  | _ + 1, A => fun i j =>
    (-1) ^ ((j : ℕ) + (i : ℕ)) * myDet (A.submatrix j.succAbove i.succAbove)

/-- Computable matrix inverse `det⁻¹ • adjugate`, the exact-arithmetic
counterpart of `np.linalg.inv`. -/
def myInv {n : ℕ} (A : Matrix (Fin n) (Fin n) ℚ) : Matrix (Fin n) (Fin n) ℚ :=
  (myDet A)⁻¹ • myAdjugate A

/-- Modelled from the spec: `is_invertible_svd` lives in
`ml_core.core_components.linalg`, which is not part of the sources.  The spec
(§4.2 step 4) treats a matrix as singular when its smallest singular value is
below `max(singular values) * n * machine_epsilon`.  In exact rational
arithmetic this tolerance test degenerates to the smallest singular value
being exactly zero, i.e. to the determinant vanishing. -/
def is_invertible_svd {n : ℕ} (A : Matrix (Fin n) (Fin n) ℚ) : Bool :=
  decide (myDet A ≠ 0)

/-- Errors the Python code can raise.  `valueError` carries the message of a
`ValueError`; `typeError` models numpy/Python `TypeError`s coming from
arithmetic with an unset (`None`) attribute; `attributeError` models access
to an attribute (`x_`, `y_`) that `__init__` never created.
`notFittedError` is the error the spec's §6/§7 mandates for pre-fit access;
the sources never construct it. -/
inductive PyError where
  | valueError : String → PyError
  | typeError : String → PyError
  | attributeError : String → PyError
  | notFittedError : PyError
deriving DecidableEq, Repr

/-- Mutable state of a `LinearRegression` instance.  `__init__` sets
`coef_`, `intercept_`, `betas_`, `degrees_of_freedom`, `num_predictors` to
`None` and `trained` to `False`; the attributes `x_` and `y_` do not exist
until `fit` first assigns them, which `Option` models as well (`none` =
absent / `None`).  The `name` field comes from the `RegressionModel` base
class constructor (modelled from the spec, the base class is not in the
sources). -/
structure Model where
  name : String
  compute_stats : Bool
  coef_ : Option (List ℚ)
  intercept_ : Option ℚ
  betas_ : Option (List ℚ)
  degrees_of_freedom : Option ℤ
  num_predictors : Option ℤ
  trained : Bool
  x_ : Option (List (List ℚ))
  y_ : Option (List ℚ)
deriving DecidableEq, Repr

/-- State produced by `LinearRegression.__init__`. -/
def initModel (compute_stats : Bool) : Model :=
  { name := "LinearRegression"
    compute_stats := compute_stats
    coef_ := none
    intercept_ := none
    betas_ := none
    degrees_of_freedom := none
    num_predictors := none
    trained := false
    x_ := none
    y_ := none }

/- List-level linear algebra mirroring the numpy operations used on the
dynamically shaped stored arrays. -/

/-- Number of columns (`X.shape[1]`) of a row-major list matrix. -/
def ncols (X : List (List ℚ)) : ℕ := (X.headD []).length

/-- Dot product of two equal-length rows. -/
def dotList (a b : List ℚ) : ℚ := (List.zipWith (· * ·) a b).sum

/-- Matrix–vector product `X @ b`. -/
def matVecList (X : List (List ℚ)) (b : List ℚ) : List ℚ :=
  X.map fun r => dotList r b

/-- Transpose `X.T` of a list matrix. -/
def transposeList (X : List (List ℚ)) : List (List ℚ) :=
  (List.range (ncols X)).map fun j => X.map fun r => r.getD j 0

/-- Matrix product `A @ B`. -/
def matMulList (A B : List (List ℚ)) : List (List ℚ) :=
  A.map fun r => (transposeList B).map fun c => dotList r c

/-- View a square list matrix as a `Matrix (Fin n) (Fin n) ℚ`. -/
def listsToSq (n : ℕ) (A : List (List ℚ)) : Matrix (Fin n) (Fin n) ℚ :=
  fun i j => (A.getD i []).getD j 0

/-- Render a shape-indexed matrix as a row-major list matrix. -/
def matToLists {m n : ℕ} (A : Matrix (Fin m) (Fin n) ℚ) : List (List ℚ) :=
  List.ofFn fun i => List.ofFn fun j => A i j

/-- List-level `np.linalg.inv` on a (square, row-major) list matrix. -/
def invList (A : List (List ℚ)) : List (List ℚ) :=
  matToLists (myInv (listsToSq A.length A))

/-- Diagonal `np.diag` of a square list matrix. -/
def diagList (A : List (List ℚ)) : List ℚ :=
  A.enum.map fun p => p.2.getD p.1 0

/-- Scalar multiple of a list matrix. -/
def smulList (c : ℚ) (A : List (List ℚ)) : List (List ℚ) :=
  A.map fun r => r.map fun v => c * v

/-- Mean `np.mean` of a list (0 on the empty list, where numpy gives NaN;
no claim touches that case). -/
def listMean (xs : List ℚ) : ℚ := xs.sum / (xs.length : ℚ)

/-- Message of the `ValueError` raised by `_check_degrees_of_freedom`. -/
def dofErrorMsg : String := "Degrees of freedom must be greater than 0."

/-- Message of the `ValueError` raised by `_check_is_matrix_invertible`. -/
def singularErrorMsg : String := "Matrix is not invertible."

/-- Source `_include_intercept_column`: `np.hstack([np.ones((m, 1)), X])`. -/
def include_intercept_column {m p : ℕ} (X : Matrix (Fin m) (Fin p) ℚ) :
    Matrix (Fin m) (Fin (p + 1)) ℚ :=
  Matrix.of fun i => Matrix.vecCons 1 (X i)

/-- Result of a `fit` call: the optional raised error together with the
object state after the call (on an exception the partially mutated state
survives, exactly as a Python object would). -/
structure FitResult where
  err : Option PyError
  st : Model
deriving DecidableEq, Repr

/-- Source `LinearRegression.fit`, statement by statement:
preprocess X (intercept augmentation; the 1-D reshape concerns the
vector-shaped calling convention, covered by `p = 1` inputs) and y, assign
`x_` and `y_`, check degrees of freedom, assign `degrees_of_freedom` and
`num_predictors`, check invertibility of `XᵀX`, then solve
`inv(XᵀX) @ Xᵀ @ y` and split the betas. -/
def fit (md : Model) {m p : ℕ} (X : Matrix (Fin m) (Fin p) ℚ)
    (y : Fin m → ℚ) : FitResult :=
  let Xa := include_intercept_column X
  let md1 : Model := { md with x_ := some (matToLists Xa), y_ := some (List.ofFn y) }
  if (m : ℤ) - (p + 1) ≤ 0 then
    { err := some (.valueError dofErrorMsg), st := md1 }
  else
    let md2 : Model := { md1 with
      degrees_of_freedom := some ((m : ℤ) - (p + 1))
      num_predictors := some ((p + 1 : ℤ) - 1) }
    if is_invertible_svd (Xaᵀ * Xa) then
      let betas : Fin (p + 1) → ℚ := (myInv (Xaᵀ * Xa) * Xaᵀ) *ᵥ y
      { err := none
        st := { md2 with
          betas_ := some (List.ofFn betas)
          intercept_ := some (betas 0)
          coef_ := some (List.ofFn fun i : Fin p => betas i.succ)
          trained := true } }
    else
      { err := some (.valueError singularErrorMsg), st := md2 }

/-- Source `_check_preprocess_is_needed`: compare `X.shape[1]` with
`len(self.betas_)` (0 when `betas_` is `None`). -/
def check_preprocess_is_needed (md : Model) (X : List (List ℚ)) : Bool :=
  decide (ncols X ≠ (match md.betas_ with | some bs => bs.length | none => 0))

/-- Source `_preprocess_input_matrix` on an already 2-D input: prepend the
intercept column of ones (copying is identity on pure values). -/
def preprocess_input_matrix (X : List (List ℚ)) : List (List ℚ) :=
  X.map fun r => 1 :: r

/-- Source `_preprocess_input_mat_if_needed`. -/
def preprocess_input_mat_if_needed (md : Model) (X : List (List ℚ)) :
    List (List ℚ) :=
  if check_preprocess_is_needed md X then preprocess_input_matrix X else X

/-- Source `LinearRegression.predict`: preprocess if needed, then
`x_array @ self.betas_`; with `betas_ = None` the matmul raises a
`TypeError`. -/
def predict (md : Model) (X : List (List ℚ)) : Except PyError (List ℚ) :=
  let xa := preprocess_input_mat_if_needed md X
  match md.betas_ with
  | none => .error (.typeError "unsupported operand type for matmul: NoneType")
  | some bs => .ok (matVecList xa bs)

/-- Source `_compute_total_sum_squares`: `np.sum(np.square(y - np.mean(y)))`
(the `_preprocess_input_vector` copy is identity on pure values). -/
def total_sum_squares (y : List ℚ) : ℚ :=
  (y.map fun v => (v - listMean y) ^ 2).sum

/-- Source `_compute_sum_squared_residuals`:
`np.sum(np.square(y_true - y_pred))`. -/
def sum_squared_residuals (y_pred y_true : List ℚ) : ℚ :=
  (List.zipWith (fun t q => (t - q) ^ 2) y_true y_pred).sum

/-- Source `get_residuals`: `y_true_vec - self.predict(self.x_)`; accessing
the never-assigned attributes `y_` / `x_` before any `fit` raises an
`AttributeError`. -/
def get_residuals (md : Model) : Except PyError (List ℚ) :=
  match md.y_ with
  | none => .error (.attributeError "y_")
  | some yv =>
    match md.x_ with
    | none => .error (.attributeError "x_")
    | some xm => (predict md xm).map fun yp => List.zipWith (· - ·) yv yp

/-- Source `compute_r_squared`: `1 - ssr / sst` from predictions on the
stored `x_` against the stored `y_`. -/
def compute_r_squared (md : Model) : Except PyError ℚ :=
  match md.x_ with
  | none => .error (.attributeError "x_")
  | some xm =>
    match md.y_ with
    | none => .error (.attributeError "y_")
    | some yv =>
      (predict md xm).map fun yp =>
        1 - sum_squared_residuals yp yv / total_sum_squares yv

/-- Source `compute_adjusted_r_squared`:
`1 - (1 - r_squared) * self.num_predictors / self.degrees_of_freedom`. -/
def compute_adjusted_r_squared (md : Model) : Except PyError ℚ :=
  (compute_r_squared md).bind fun r2 =>
    match md.num_predictors, md.degrees_of_freedom with
    | some k, some d => .ok (1 - (1 - r2) * (k : ℚ) / (d : ℚ))
    | _, _ => .error (.typeError "unsupported operand type: NoneType")

/-- Source `compute_f_statistic`:
`(sst - ssr) * self.degrees_of_freedom / (self.num_predictors * ssr)`. -/
def compute_f_statistic (md : Model) : Except PyError ℚ :=
  match md.x_ with
  | none => .error (.attributeError "x_")
  | some xm =>
    (predict md xm).bind fun yp =>
      match md.y_ with
      | none => .error (.attributeError "y_")
      | some yv =>
        match md.degrees_of_freedom, md.num_predictors with
        | some d, some k =>
          .ok ((total_sum_squares yv - sum_squared_residuals yp yv) * (d : ℚ) /
            ((k : ℚ) * sum_squared_residuals yp yv))
        | _, _ => .error (.typeError "unsupported operand type: NoneType")

/-- Source `_get_residuals_variance`:
`np.sum(np.square(residuals)) / self.degrees_of_freedom`. -/
def get_residuals_variance (md : Model) : Except PyError ℚ :=
  (get_residuals md).bind fun rs =>
    match md.degrees_of_freedom with
    | some d => .ok ((rs.map fun r => r ^ 2).sum / (d : ℚ))
    | none => .error (.typeError "unsupported operand type: NoneType")

/-- Source `_compute_covariance_matrix`:
`residuals_variance * np.linalg.inv(self.x_.T @ self.x_)`. -/
def compute_covariance_matrix (md : Model) : Except PyError (List (List ℚ)) :=
  (get_residuals_variance md).bind fun v =>
    match md.x_ with
    | none => .error (.attributeError "x_")
    | some xm => .ok (smulList v (invList (matMulList (transposeList xm) xm)))

/-- Source `compute_standard_errors`:
`np.sqrt(np.diag(covariance_matrix))`.  The square root is not
ℚ-representable, so the embedding is parametric in the `sqrt` primitive. -/
def compute_standard_errors (sq : ℚ → ℚ) (md : Model) :
    Except PyError (List ℚ) :=
  (compute_covariance_matrix md).map fun c => (diagList c).map sq

/-- Source `compute_t_statistics`: `self.betas_ / standard_errors`. -/
def compute_t_statistics (sq : ℚ → ℚ) (md : Model) :
    Except PyError (List ℚ) :=
  (compute_standard_errors sq md).bind fun se =>
    match md.betas_ with
    | some bs => .ok (List.zipWith (· / ·) bs se)
    | none => .error (.typeError "unsupported operand type: NoneType")

/-- Source of `np.std`: square root of the mean of squared deviations from
the mean (population convention, divisor `n`), parametric in `sqrt`. -/
def numpy_std (sq : ℚ → ℚ) (xs : List ℚ) : ℚ :=
  sq (listMean (xs.map fun x => (x - listMean xs) ^ 2))

/-- Source `get_residual_standard_error`: `np.std(self.get_residuals())`. -/
def get_residual_standard_error (sq : ℚ → ℚ) (md : Model) :
    Except PyError ℚ :=
  (get_residuals md).map (numpy_std sq)

/-- Modelled from the spec (for the refinement claim about the residual
standard error): the population standard deviation of a sample, written with
the divisor-`n` variance spelled out. -/
def population_std (sq : ℚ → ℚ) (xs : List ℚ) : ℚ :=
  sq ((xs.map fun x => (x - listMean xs) ^ 2).sum / (xs.length : ℚ))

/-- Sorted copy of a list, ascending. -/
def sortedList (xs : List ℚ) : List ℚ :=
  xs.mergeSort fun a b => decide (a ≤ b)

/-- Source of `np.percentile` (default linear interpolation):
`h = (n - 1) * q / 100`, interpolate between the two bracketing order
statistics. -/
def percentile (xs : List ℚ) (q : ℚ) : ℚ :=
  let s := sortedList xs
  let h : ℚ := ((s.length : ℚ) - 1) * q / 100
  let lo : ℕ := h.floor.toNat
  let base := s.getD lo 0
  base + (h - h.floor) * (s.getD (lo + 1) base - base)

/-- Value of `get_residuals_summary_stats`. -/
structure ResidSummary where
  min : ℚ
  q1 : ℚ
  median : ℚ
  q3 : ℚ
  max : ℚ
deriving DecidableEq, Repr

/-- Source `get_residuals_summary_stats`: `{min, 1Q, median, 3Q, max}` of the
residuals. -/
def get_residuals_summary_stats (md : Model) : Except PyError ResidSummary :=
  (get_residuals md).map fun rs =>
    { min := (sortedList rs).headD 0
      q1 := percentile rs 25
      median := percentile rs 50
      q3 := percentile rs 75
      max := (sortedList rs).getLastD 0 }

/-- Source `get_params`: `{"beta_x_{i+1}": coef, ..., "intercept": ...}`;
iterating over `coef_ = None` raises a `TypeError`.  The intercept entry
carries `Option` because Python would happily store `None` there. -/
def get_params (md : Model) : Except PyError (List (String × Option ℚ)) :=
  match md.coef_ with
  | none => .error (.typeError "NoneType is not iterable")
  | some cs =>
    .ok ((cs.enum.map fun q => ("beta_x_" ++ toString (q.1 + 1), some q.2)) ++
      [("intercept", md.intercept_)])

/-- Bool-level check used to state C3: the call fails, but not with the
spec-mandated `NotFittedError`. -/
def failsNotFittedB {α : Type} (r : Except PyError α) : Bool :=
  match r with
  | .error e => decide (e ≠ PyError.notFittedError)
  | .ok _ => false

/-- Concrete fitted state (the result of fitting X = [[1],[2],[3]],
y = [1,2,4]), used as a test vector by witnesses. -/
def fittedExample : Model :=
  { name := "LinearRegression", compute_stats := false
    coef_ := some [3 / 2], intercept_ := some (-2 / 3)
    betas_ := some [-2 / 3, 3 / 2]
    degrees_of_freedom := some 1, num_predictors := some 1
    trained := true, x_ := some [[1, 1], [1, 2], [1, 3]]
    y_ := some [1, 2, 4] }

/- Evaluation helpers and structural equations for `fit`. -/

theorem myDet_eq_det : ∀ {n : ℕ} (A : Matrix (Fin n) (Fin n) ℚ), myDet A = A.det
  | 0, A => by simp [myDet]
  | n + 1, A => by
    rw [Matrix.det_succ_row_zero, myDet]
    exact Finset.sum_congr rfl fun j _ => by rw [myDet_eq_det]

theorem myAdjugate_eq_adjugate :
    ∀ {n : ℕ} (A : Matrix (Fin n) (Fin n) ℚ), myAdjugate A = A.adjugate
  | 0, A => Matrix.ext fun i _ => i.elim0
  | n + 1, A => by
    funext i j
    simp only [myAdjugate, myDet_eq_det]
    rw [Matrix.adjugate_fin_succ_eq_det_submatrix]

theorem myInv_eq_inv {n : ℕ} (A : Matrix (Fin n) (Fin n) ℚ) : myInv A = A⁻¹ := by
  rw [Matrix.inv_def, myInv, myDet_eq_det, myAdjugate_eq_adjugate,
    Ring.inverse_eq_inv]


theorem myDet_two (A : Matrix (Fin 2) (Fin 2) ℚ) :
    myDet A = A 0 0 * A 1 1 - A 0 1 * A 1 0 := by
  rw [myDet_eq_det, Matrix.det_fin_two]

theorem myDet_three (A : Matrix (Fin 3) (Fin 3) ℚ) :
    myDet A = A 0 0 * A 1 1 * A 2 2 - A 0 0 * A 1 2 * A 2 1 -
      A 0 1 * A 1 0 * A 2 2 + A 0 1 * A 1 2 * A 2 0 +
      A 0 2 * A 1 0 * A 2 1 - A 0 2 * A 1 1 * A 2 0 := by
  rw [myDet_eq_det, Matrix.det_fin_three]

theorem myAdjugate_two (A : Matrix (Fin 2) (Fin 2) ℚ) :
    myAdjugate A = !![A 1 1, -A 0 1; -A 1 0, A 0 0] := by
  rw [myAdjugate_eq_adjugate, Matrix.adjugate_fin_two]

theorem fit_eq_of_dof_nonpos {m p : ℕ} (md : Model)
    (X : Matrix (Fin m) (Fin p) ℚ) (y : Fin m → ℚ)
    (h : (m : ℤ) - (p + 1) ≤ 0) :
    fit md X y = { err := some (.valueError dofErrorMsg)
                   st := { md with
                     x_ := some (matToLists (include_intercept_column X))
                     y_ := some (List.ofFn y) } } := by
  simp only [fit]
  rw [if_pos h]

theorem fit_eq_of_singular {m p : ℕ} (md : Model)
    (X : Matrix (Fin m) (Fin p) ℚ) (y : Fin m → ℚ)
    (hdof : 0 < (m : ℤ) - (p + 1))
    (hsing : ¬ is_invertible_svd
      ((include_intercept_column X)ᵀ * include_intercept_column X) = true) :
    fit md X y = { err := some (.valueError singularErrorMsg)
                   st := { md with
                     x_ := some (matToLists (include_intercept_column X))
                     y_ := some (List.ofFn y)
                     degrees_of_freedom := some ((m : ℤ) - (p + 1))
                     num_predictors := some ((p + 1 : ℤ) - 1) } } := by
  simp only [fit]
  rw [if_neg (not_le.mpr hdof), if_neg hsing]

theorem fit_eq_of_ok {m p : ℕ} (md : Model)
    (X : Matrix (Fin m) (Fin p) ℚ) (y : Fin m → ℚ)
    (hdof : 0 < (m : ℤ) - (p + 1))
    (hinv : is_invertible_svd
      ((include_intercept_column X)ᵀ * include_intercept_column X) = true) :
    fit md X y = { err := none
                   st := { md with
                     x_ := some (matToLists (include_intercept_column X))
                     y_ := some (List.ofFn y)
                     degrees_of_freedom := some ((m : ℤ) - (p + 1))
                     num_predictors := some ((p + 1 : ℤ) - 1)
                     betas_ := some (List.ofFn
                       ((myInv ((include_intercept_column X)ᵀ *
                           include_intercept_column X) *
                         (include_intercept_column X)ᵀ) *ᵥ y))
                     intercept_ := some
                       (((myInv ((include_intercept_column X)ᵀ *
                           include_intercept_column X) *
                         (include_intercept_column X)ᵀ) *ᵥ y) 0)
                     coef_ := some (List.ofFn fun i : Fin p =>
                       ((myInv ((include_intercept_column X)ᵀ *
                           include_intercept_column X) *
                         (include_intercept_column X)ᵀ) *ᵥ y) i.succ)
                     trained := true } } := by
  simp only [fit]
  rw [if_neg (not_le.mpr hdof), if_pos hinv]

theorem fit_cases {m p : ℕ} (md : Model)
    (X : Matrix (Fin m) (Fin p) ℚ) (y : Fin m → ℚ) :
    ((m : ℤ) - (p + 1) ≤ 0 ∧
      (fit md X y).err = some (.valueError dofErrorMsg)) ∨
    (0 < (m : ℤ) - (p + 1) ∧
      ¬ is_invertible_svd
        ((include_intercept_column X)ᵀ * include_intercept_column X) = true ∧
      (fit md X y).err = some (.valueError singularErrorMsg)) ∨
    (0 < (m : ℤ) - (p + 1) ∧
      is_invertible_svd
        ((include_intercept_column X)ᵀ * include_intercept_column X) = true ∧
      (fit md X y).err = none) := by
  rcases le_or_lt ((m : ℤ) - (p + 1)) 0 with h | h
  · exact Or.inl ⟨h, by rw [fit_eq_of_dof_nonpos md X y h]⟩
  · by_cases hinv : is_invertible_svd
      ((include_intercept_column X)ᵀ * include_intercept_column X) = true
    · exact Or.inr (Or.inr ⟨h, hinv, by rw [fit_eq_of_ok md X y h hinv]⟩)
    · exact Or.inr (Or.inl ⟨h, hinv, by rw [fit_eq_of_singular md X y h hinv]⟩)

theorem fit_ok_conditions {m p : ℕ} (md st1 : Model)
    (X : Matrix (Fin m) (Fin p) ℚ) (y : Fin m → ℚ)
    (h : fit md X y = { err := none, st := st1 }) :
    0 < (m : ℤ) - (p + 1) ∧
    is_invertible_svd
      ((include_intercept_column X)ᵀ * include_intercept_column X) = true := by
  rcases fit_cases md X y with ⟨h1, h2⟩ | ⟨h1, h2, h3⟩ | ⟨h1, h2, h3⟩
  · rw [h] at h2; simp at h2
  · rw [h] at h3; simp at h3
  · exact ⟨h1, h2⟩

theorem ncols_matToLists {m n : ℕ} (hm : 0 < m)
    (A : Matrix (Fin m) (Fin n) ℚ) : ncols (matToLists A) = n := by
  cases m with
  | zero => exact absurd hm (by omega)
  | succ k => simp [matToLists, ncols, List.ofFn_succ]

/-- C1: for every design matrix X and response y accepted by `fit` (positive
degrees of freedom and an invertible XᵀX after intercept augmentation),
`fit` succeeds and computes the coefficient vector as
`betas = (XᵀX)⁻¹ Xᵀ y` on the augmented matrix (here `⁻¹` is the
mathematical matrix inverse), storing `betas[0]` as the intercept and
`betas[1:]` as the coefficients. -/
theorem fit_solves_normal_equations {m p : ℕ} (md : Model)
    (X : Matrix (Fin m) (Fin p) ℚ) (y : Fin m → ℚ)
    (hdof : 0 < (m : ℤ) - (p + 1))
    (hinv : is_invertible_svd
      ((include_intercept_column X)ᵀ * include_intercept_column X) = true) :
    ∃ st1 : Model, fit md X y = { err := none, st := st1 } ∧
      st1.betas_ = some (List.ofFn
        ((((include_intercept_column X)ᵀ * include_intercept_column X)⁻¹ *
          (include_intercept_column X)ᵀ) *ᵥ y)) ∧
      st1.intercept_ = some
        (((((include_intercept_column X)ᵀ * include_intercept_column X)⁻¹ *
          (include_intercept_column X)ᵀ) *ᵥ y) 0) ∧
      st1.coef_ = some (List.ofFn fun i : Fin p =>
        ((((include_intercept_column X)ᵀ * include_intercept_column X)⁻¹ *
          (include_intercept_column X)ᵀ) *ᵥ y) i.succ) := by
  refine ⟨_, fit_eq_of_ok md X y hdof hinv, ?_, ?_, ?_⟩ <;>
    simp only [myInv_eq_inv]

/-- Witness for C1 at X = [[1],[2],[3]], y = [2,4,7]: the hypotheses hold
and the fit succeeds. -/
theorem fit_solves_normal_equations_witness :
    0 < (3 : ℤ) - (1 + 1) ∧
    is_invertible_svd ((include_intercept_column !![(1 : ℚ); 2; 3])ᵀ *
      include_intercept_column !![(1 : ℚ); 2; 3]) = true ∧
    (fit (initModel false) !![(1 : ℚ); 2; 3] ![2, 4, 7]).err = none :=
  ⟨by norm_num,
   by norm_num [is_invertible_svd, myDet_two, include_intercept_column,
     Matrix.mul_apply, Fin.sum_univ_succ, Matrix.transpose_apply,
     Matrix.of_apply, Matrix.cons_val_zero, Matrix.cons_val_one,
     Matrix.cons_val_succ, Matrix.cons_val_two, Matrix.cons_val_three,
     Matrix.head_cons, Matrix.tail_cons, Matrix.vecHead, Matrix.vecTail,
     Function.comp_apply],
   by
    obtain ⟨st1, hst, -⟩ := fit_solves_normal_equations (initModel false)
      !![(1 : ℚ); 2; 3] ![2, 4, 7] (by norm_num)
      (by norm_num [is_invertible_svd, myDet_two, include_intercept_column,
        Matrix.mul_apply, Fin.sum_univ_succ, Matrix.transpose_apply,
        Matrix.of_apply, Matrix.cons_val_zero, Matrix.cons_val_one,
        Matrix.cons_val_succ, Matrix.cons_val_two, Matrix.cons_val_three,
        Matrix.head_cons, Matrix.tail_cons, Matrix.vecHead, Matrix.vecTail,
        Function.comp_apply])
    rw [hst]⟩

/-- C4: the degrees-of-freedom check comes first: whenever
`n_rows - n_cols_augmented ≤ 0`, `fit` raises the ValueError whose message
states degrees of freedom must be greater than 0, before the invertibility
check and before any solve (only `x_` and `y_` are assigned at that point);
when the difference is positive this error is not raised and
`degrees_of_freedom` is stored as `n_rows - n_cols_augmented`. -/
theorem fit_checks_degrees_of_freedom_first {m p : ℕ} (md : Model)
    (X : Matrix (Fin m) (Fin p) ℚ) (y : Fin m → ℚ) :
    ((m : ℤ) - (p + 1) ≤ 0 →
      fit md X y = { err := some (.valueError dofErrorMsg)
                     st := { md with
                       x_ := some (matToLists (include_intercept_column X))
                       y_ := some (List.ofFn y) } }) ∧
    (0 < (m : ℤ) - (p + 1) →
      (fit md X y).err ≠ some (.valueError dofErrorMsg) ∧
      (fit md X y).st.degrees_of_freedom = some ((m : ℤ) - (p + 1))) := by
  refine ⟨fun h => fit_eq_of_dof_nonpos md X y h, fun h => ?_⟩
  by_cases hinv : is_invertible_svd
    ((include_intercept_column X)ᵀ * include_intercept_column X) = true
  · rw [fit_eq_of_ok md X y h hinv]
    exact ⟨by simp, rfl⟩
  · rw [fit_eq_of_singular md X y h hinv]
    refine ⟨?_, rfl⟩
    simp only [Option.some.injEq, PyError.valueError.injEq]
    decide

/-- Witness for C4: a 1×1 design matrix (degrees of freedom −1) raises the
degrees-of-freedom error and only assigns `x_`, `y_`; a 3×1 one does not
raise it and stores `degrees_of_freedom = 1`. -/
theorem fit_checks_degrees_of_freedom_first_witness :
    ((1 : ℤ) - (1 + 1) ≤ 0 ∧
      fit (initModel false) !![(1 : ℚ)] ![1] =
        { err := some (.valueError dofErrorMsg)
          st := { initModel false with
            x_ := some (matToLists (include_intercept_column !![(1 : ℚ)]))
            y_ := some (List.ofFn ![(1 : ℚ)]) } }) ∧
    (0 < (3 : ℤ) - (1 + 1) ∧
      (fit (initModel false) !![(1 : ℚ); 2; 3] ![2, 4, 7]).err ≠
        some (.valueError dofErrorMsg) ∧
      (fit (initModel false) !![(1 : ℚ); 2; 3]
        ![2, 4, 7]).st.degrees_of_freedom = some ((3 : ℤ) - (1 + 1))) :=
  ⟨⟨by norm_num,
    (fit_checks_degrees_of_freedom_first (initModel false) !![(1 : ℚ)]
      ![1]).1 (by norm_num)⟩,
   ⟨by norm_num,
    (fit_checks_degrees_of_freedom_first (initModel false) !![(1 : ℚ); 2; 3]
      ![2, 4, 7]).2 (by norm_num)⟩⟩

/-- C5: for every input passing the degrees-of-freedom check whose augmented
XᵀX is singular (zero determinant, the exact-arithmetic reading of the
spec's singular-value tolerance test), `fit` raises the ValueError stating
the matrix is not invertible, and the solve is never attempted: `betas_`,
`intercept_`, `coef_` and `trained` keep their prior values (only `x_`,
`y_`, `degrees_of_freedom`, `num_predictors` were assigned). -/
theorem fit_singular_raises_before_solve {m p : ℕ} (md : Model)
    (X : Matrix (Fin m) (Fin p) ℚ) (y : Fin m → ℚ)
    (hdof : 0 < (m : ℤ) - (p + 1))
    (hsing : myDet
      ((include_intercept_column X)ᵀ * include_intercept_column X) = 0) :
    fit md X y = { err := some (.valueError singularErrorMsg)
                   st := { md with
                     x_ := some (matToLists (include_intercept_column X))
                     y_ := some (List.ofFn y)
                     degrees_of_freedom := some ((m : ℤ) - (p + 1))
                     num_predictors := some ((p + 1 : ℤ) - 1) } } :=
  fit_eq_of_singular md X y hdof (by simp [is_invertible_svd, hsing])

/-- Witness for C5: a 4×2 design matrix with a duplicated column passes the
degrees-of-freedom check, has singular XᵀX, and makes `fit` raise the
singular-matrix error. -/
theorem fit_singular_raises_before_solve_witness :
    0 < (4 : ℤ) - (2 + 1) ∧
    myDet ((include_intercept_column !![(1 : ℚ), 1; 2, 2; 3, 3; 4, 4])ᵀ *
      include_intercept_column !![(1 : ℚ), 1; 2, 2; 3, 3; 4, 4]) = 0 ∧
    fit (initModel false) !![(1 : ℚ), 1; 2, 2; 3, 3; 4, 4] ![1, 2, 3, 4] =
      { err := some (.valueError singularErrorMsg)
        st := { initModel false with
          x_ := some (matToLists
            (include_intercept_column !![(1 : ℚ), 1; 2, 2; 3, 3; 4, 4]))
          y_ := some (List.ofFn ![(1 : ℚ), 2, 3, 4])
          degrees_of_freedom := some ((4 : ℤ) - (2 + 1))
          num_predictors := some ((2 + 1 : ℤ) - 1) } } :=
  ⟨by norm_num,
   by norm_num [myDet_three, include_intercept_column, Matrix.mul_apply,
     Fin.sum_univ_succ, Matrix.transpose_apply, Matrix.of_apply,
     Matrix.cons_val_zero, Matrix.cons_val_one, Matrix.cons_val_succ,
     Matrix.cons_val_two, Matrix.cons_val_three, Matrix.head_cons,
     Matrix.tail_cons, Matrix.vecHead, Matrix.vecTail, Function.comp_apply],
   fit_singular_raises_before_solve (initModel false)
     !![(1 : ℚ), 1; 2, 2; 3, 3; 4, 4] ![1, 2, 3, 4] (by norm_num)
     (by norm_num [myDet_three, include_intercept_column, Matrix.mul_apply,
       Fin.sum_univ_succ, Matrix.transpose_apply, Matrix.of_apply,
       Matrix.cons_val_zero, Matrix.cons_val_one, Matrix.cons_val_succ,
       Matrix.cons_val_two, Matrix.cons_val_three, Matrix.head_cons,
       Matrix.tail_cons, Matrix.vecHead, Matrix.vecTail,
       Function.comp_apply])⟩

/-- Counterexample to C2: refitting an already fitted estimator with a
degrees-of-freedom-violating 1×1 input raises, yet the stored `x_` — prior
fit state — has been overwritten (from the 3×2 training matrix to the new
augmented 1×2 one) before the raise, so the failing call does not leave all
prior state untouched. -/
theorem fit_not_atomic_counterexample :
    fittedExample.x_ = some [[1, 1], [1, 2], [1, 3]] ∧
    (fit fittedExample !![(1 : ℚ)] ![1]).err =
      some (.valueError dofErrorMsg) ∧
    (fit fittedExample !![(1 : ℚ)] ![1]).st.x_ = some [[1, 1]] ∧
    (fit fittedExample !![(1 : ℚ)] ![1]).st.x_ ≠ fittedExample.x_ := by
  rw [fit_eq_of_dof_nonpos fittedExample !![(1 : ℚ)] ![1] (by norm_num)]
  have hx : matToLists (include_intercept_column !![(1 : ℚ)]) = [[1, 1]] := by
    norm_num [matToLists, include_intercept_column, List.ofFn_succ,
      Matrix.of_apply, Matrix.cons_val_zero, Matrix.cons_val_succ,
      Matrix.cons_val_one, Matrix.head_cons]
  refine ⟨rfl, rfl, ?_, ?_⟩
  · simp only [hx]
  · simp only [hx, fittedExample]
    simp

/-- C2 amended: `fit` is not atomic.  On every failing call the solution
fields `betas_`, `intercept_`, `coef_` and `trained` do keep their prior
values, but `x_` and `y_` are overwritten before the checks, and on a
singular-matrix failure `degrees_of_freedom` and `num_predictors` are
overwritten too (on a degrees-of-freedom failure those two are untouched). -/
theorem fit_failure_keeps_solution_fields {m p : ℕ} (md : Model)
    (X : Matrix (Fin m) (Fin p) ℚ) (y : Fin m → ℚ) (e : PyError)
    (h : (fit md X y).err = some e) :
    (fit md X y).st.betas_ = md.betas_ ∧
    (fit md X y).st.intercept_ = md.intercept_ ∧
    (fit md X y).st.coef_ = md.coef_ ∧
    (fit md X y).st.trained = md.trained ∧
    (fit md X y).st.x_ = some (matToLists (include_intercept_column X)) ∧
    (fit md X y).st.y_ = some (List.ofFn y) ∧
    ((e = .valueError dofErrorMsg ∧
      (fit md X y).st.degrees_of_freedom = md.degrees_of_freedom ∧
      (fit md X y).st.num_predictors = md.num_predictors) ∨
     (e = .valueError singularErrorMsg ∧
      (fit md X y).st.degrees_of_freedom = some ((m : ℤ) - (p + 1)) ∧
      (fit md X y).st.num_predictors = some ((p + 1 : ℤ) - 1))) := by
  rcases fit_cases md X y with ⟨h1, h2⟩ | ⟨h1, h2, h3⟩ | ⟨h1, h2, h3⟩
  · rw [fit_eq_of_dof_nonpos md X y h1] at h ⊢
    obtain rfl : PyError.valueError dofErrorMsg = e := by simpa using h
    exact ⟨rfl, rfl, rfl, rfl, rfl, rfl, Or.inl ⟨rfl, rfl, rfl⟩⟩
  · rw [fit_eq_of_singular md X y h1 h2] at h ⊢
    obtain rfl : PyError.valueError singularErrorMsg = e := by simpa using h
    exact ⟨rfl, rfl, rfl, rfl, rfl, rfl, Or.inr ⟨rfl, rfl, rfl⟩⟩
  · rw [h3] at h; simp at h

/-- Witness for the amended C2 at a 1×1 design matrix: the call fails with
the degrees-of-freedom error and `betas_` keeps its prior value. -/
theorem fit_failure_keeps_solution_fields_witness :
    (fit (initModel false) !![(1 : ℚ)] ![1]).err =
      some (.valueError dofErrorMsg) ∧
    (fit (initModel false) !![(1 : ℚ)] ![1]).st.betas_ =
      (initModel false).betas_ := by
  have h : (fit (initModel false) !![(1 : ℚ)] ![1]).err =
      some (.valueError dofErrorMsg) := by
    rw [fit_eq_of_dof_nonpos (initModel false) !![(1 : ℚ)] ![1] (by norm_num)]
  exact ⟨h, (fit_failure_keeps_solution_fields (initModel false) !![(1 : ℚ)]
    ![1] _ h).1⟩

/-- C7: fitting is idempotent and deterministic: when `fit` succeeds on
`(X, y)` producing state `st1`, running `fit` again on `st1` with the same
input succeeds and leaves the state exactly `st1`. -/
theorem fit_idempotent {m p : ℕ} (md st1 : Model)
    (X : Matrix (Fin m) (Fin p) ℚ) (y : Fin m → ℚ)
    (h : fit md X y = { err := none, st := st1 }) :
    fit st1 X y = { err := none, st := st1 } := by
  obtain ⟨h1, h2⟩ := fit_ok_conditions md st1 X y h
  rw [fit_eq_of_ok md X y h1 h2, FitResult.mk.injEq] at h
  obtain ⟨-, hst⟩ := h
  subst hst
  rw [fit_eq_of_ok _ X y h1 h2]

/-- Witness for C7 at X = [[1],[2],[3]], y = [2,4,7]. -/
theorem fit_idempotent_witness :
    fit (fit (initModel false) !![(1 : ℚ); 2; 3] ![2, 4, 7]).st
      !![(1 : ℚ); 2; 3] ![2, 4, 7] =
    { err := none
      st := (fit (initModel false) !![(1 : ℚ); 2; 3] ![2, 4, 7]).st } :=
  fit_idempotent _ _ _ _ (by
    rw [fit_eq_of_ok (initModel false) !![(1 : ℚ); 2; 3] ![2, 4, 7]
      (by norm_num)
      (by norm_num [is_invertible_svd, myDet_two, include_intercept_column,
        Matrix.mul_apply, Fin.sum_univ_succ, Matrix.transpose_apply,
        Matrix.of_apply, Matrix.cons_val_zero, Matrix.cons_val_one,
        Matrix.cons_val_succ, Matrix.cons_val_two, Matrix.cons_val_three,
        Matrix.head_cons, Matrix.tail_cons, Matrix.vecHead, Matrix.vecTail,
        Function.comp_apply])])

/-- C10: invariant of the fitted state: after every successful `fit`,
`betas_` has as many entries as the stored augmented matrix has columns,
`coef_` has one entry fewer, `num_predictors` and `degrees_of_freedom`
agree with those lengths, the degrees of freedom are positive, and the
preprocessing check on the stored `x_` is false, so `predict` on the stored
matrix uses it verbatim without re-augmentation.  (No operation other than
`fit` produces a new state: every diagnostic is a pure function of the
state in this development.) -/
theorem fitted_state_invariant {m p : ℕ} (md st1 : Model)
    (X : Matrix (Fin m) (Fin p) ℚ) (y : Fin m → ℚ)
    (h : fit md X y = { err := none, st := st1 }) :
    ∃ xm bs cs, st1.x_ = some xm ∧ st1.betas_ = some bs ∧
      st1.coef_ = some cs ∧
      bs.length = ncols xm ∧
      cs.length + 1 = bs.length ∧
      st1.num_predictors = some ((bs.length : ℤ) - 1) ∧
      st1.degrees_of_freedom = some ((xm.length : ℤ) - (bs.length : ℤ)) ∧
      0 < (xm.length : ℤ) - (bs.length : ℤ) ∧
      check_preprocess_is_needed st1 xm = false ∧
      preprocess_input_mat_if_needed st1 xm = xm ∧
      predict st1 xm = .ok (matVecList xm bs) := by
  obtain ⟨h1, h2⟩ := fit_ok_conditions md st1 X y h
  have hm : 0 < m := by omega
  rw [fit_eq_of_ok md X y h1 h2, FitResult.mk.injEq] at h
  obtain ⟨-, hst⟩ := h
  subst hst
  refine ⟨_, _, _, rfl, rfl, rfl, ?_, ?_, ?_, ?_, ?_, ?_, ?_, ?_⟩
  · simp [List.length_ofFn, ncols_matToLists hm]
  · simp [List.length_ofFn]
  · simp [List.length_ofFn]
  · simp only [List.length_ofFn, matToLists, Option.some.injEq]
    push_cast
    ring
  · simp only [List.length_ofFn, matToLists]
    push_cast
    omega
  · simp [check_preprocess_is_needed, ncols_matToLists hm, List.length_ofFn]
  · simp [preprocess_input_mat_if_needed, check_preprocess_is_needed,
      ncols_matToLists hm, List.length_ofFn]
  · simp [predict, preprocess_input_mat_if_needed, check_preprocess_is_needed,
      ncols_matToLists hm, List.length_ofFn]

/-- Witness for C10 at X = [[1],[2],[3]], y = [2,4,7]. -/
theorem fitted_state_invariant_witness :
    ∃ xm bs cs,
      (fit (initModel false) !![(1 : ℚ); 2; 3] ![2, 4, 7]).st.x_ = some xm ∧
      (fit (initModel false) !![(1 : ℚ); 2; 3] ![2, 4, 7]).st.betas_ =
        some bs ∧
      (fit (initModel false) !![(1 : ℚ); 2; 3] ![2, 4, 7]).st.coef_ =
        some cs ∧
      bs.length = ncols xm ∧
      cs.length + 1 = bs.length ∧
      (fit (initModel false) !![(1 : ℚ); 2; 3]
        ![2, 4, 7]).st.num_predictors = some ((bs.length : ℤ) - 1) ∧
      (fit (initModel false) !![(1 : ℚ); 2; 3]
        ![2, 4, 7]).st.degrees_of_freedom =
        some ((xm.length : ℤ) - (bs.length : ℤ)) ∧
      0 < (xm.length : ℤ) - (bs.length : ℤ) ∧
      check_preprocess_is_needed
        (fit (initModel false) !![(1 : ℚ); 2; 3] ![2, 4, 7]).st xm = false ∧
      preprocess_input_mat_if_needed
        (fit (initModel false) !![(1 : ℚ); 2; 3] ![2, 4, 7]).st xm = xm ∧
      predict (fit (initModel false) !![(1 : ℚ); 2; 3] ![2, 4, 7]).st xm =
        .ok (matVecList xm bs) :=
  fitted_state_invariant _ _ _ _ (by
    rw [fit_eq_of_ok (initModel false) !![(1 : ℚ); 2; 3] ![2, 4, 7]
      (by norm_num)
      (by norm_num [is_invertible_svd, myDet_two, include_intercept_column,
        Matrix.mul_apply, Fin.sum_univ_succ, Matrix.transpose_apply,
        Matrix.of_apply, Matrix.cons_val_zero, Matrix.cons_val_one,
        Matrix.cons_val_succ, Matrix.cons_val_two, Matrix.cons_val_three,
        Matrix.head_cons, Matrix.tail_cons, Matrix.vecHead, Matrix.vecTail,
        Function.comp_apply])])

/-- Counterexample to C3: pre-fit `predict` fails with the `TypeError`
coming from matmul with the unset (`None`) coefficient vector, not with a
`NotFittedError`. -/
theorem predict_prefit_not_notfitted :
    predict (initModel false) [[(5 : ℚ)]] =
      .error (.typeError "unsupported operand type for matmul: NoneType") ∧
    PyError.typeError "unsupported operand type for matmul: NoneType" ≠
      PyError.notFittedError := ⟨rfl, by simp⟩

/-- C3 amended: on every estimator state with no successful fit (`betas_`
and `coef_` still `None`), `predict` and each diagnostic accessor fails,
but with a `TypeError`/`AttributeError`-style null-dereference failure —
never with the `NotFittedError` the spec mandates, which the code cannot
raise. -/
theorem prefit_accessors_fail_without_notfitted (md : Model)
    (X : List (List ℚ)) (sq : ℚ → ℚ)
    (hb : md.betas_ = none) (hc : md.coef_ = none) :
    failsNotFittedB (predict md X) = true ∧
    failsNotFittedB (get_residuals md) = true ∧
    failsNotFittedB (get_residuals_summary_stats md) = true ∧
    failsNotFittedB (compute_standard_errors sq md) = true ∧
    failsNotFittedB (compute_t_statistics sq md) = true ∧
    failsNotFittedB (compute_f_statistic md) = true ∧
    failsNotFittedB (compute_r_squared md) = true ∧
    failsNotFittedB (compute_adjusted_r_squared md) = true ∧
    failsNotFittedB (get_residual_standard_error sq md) = true ∧
    failsNotFittedB (get_params md) = true := by
  cases hy : md.y_ <;> cases hx : md.x_ <;>
    simp [failsNotFittedB, predict, get_residuals,
      get_residuals_summary_stats, compute_standard_errors,
      compute_t_statistics, compute_f_statistic, compute_r_squared,
      compute_adjusted_r_squared, get_residual_standard_error, get_params,
      get_residuals_variance, compute_covariance_matrix,
      preprocess_input_mat_if_needed, Except.map, Except.bind,
      hb, hc, hy, hx]

/-- Witness for the amended C3 on a freshly initialized estimator. -/
theorem prefit_accessors_fail_without_notfitted_witness :
    (initModel false).betas_ = none ∧ (initModel false).coef_ = none ∧
    failsNotFittedB (predict (initModel false) [[(5 : ℚ)]]) = true ∧
    failsNotFittedB (compute_r_squared (initModel false)) = true :=
  ⟨rfl, rfl,
   (prefit_accessors_fail_without_notfitted (initModel false) [[(5 : ℚ)]]
     (fun q => q) rfl rfl).1,
   (prefit_accessors_fail_without_notfitted (initModel false) [[(5 : ℚ)]]
     (fun q => q) rfl rfl).2.2.2.2.2.2.1⟩

/-- Counterexample to C9: before any fit the sentinel betas length is 0, so
on a zero-column matrix (numpy shape (3, 0)) `_check_preprocess_is_needed`
returns false — not true as the claim's "returns true unconditionally for
every X" requires. -/
theorem needs_normalization_not_unconditional :
    (initModel false).betas_ = none ∧
    check_preprocess_is_needed (initModel false) [[], [], []] = false :=
  ⟨rfl, rfl⟩

/-- C9 amended: the preprocessing-needed check returns true exactly when
the column count of X differs from the length of the stored betas vector
(sentinel length 0 before any fit — hence, pre-fit, it is true exactly for
X with a nonzero column count, a zero-column X returning false), and
`predict`'s preprocessing re-applies intercept augmentation exactly when
the check is true and uses X as-is otherwise. -/
theorem needs_normalization_iff (md : Model) (X : List (List ℚ)) :
    (∀ bs, md.betas_ = some bs →
      (check_preprocess_is_needed md X = true ↔ ncols X ≠ bs.length)) ∧
    (md.betas_ = none →
      (check_preprocess_is_needed md X = true ↔ ncols X ≠ 0)) ∧
    (check_preprocess_is_needed md X = true →
      preprocess_input_mat_if_needed md X = preprocess_input_matrix X) ∧
    (check_preprocess_is_needed md X = false →
      preprocess_input_mat_if_needed md X = X) := by
  refine ⟨fun bs hbs => ?_, fun hbs => ?_, fun h => ?_, fun h => ?_⟩
  · simp [check_preprocess_is_needed, hbs]
  · simp [check_preprocess_is_needed, hbs]
  · simp [preprocess_input_mat_if_needed, h]
  · simp [preprocess_input_mat_if_needed, h]

/-- Witness for the amended C9: pre-fit, a 1-column matrix needs
preprocessing and `predict`'s preprocessing augments it. -/
theorem needs_normalization_iff_witness :
    ((initModel false).betas_ = none ∧
      (check_preprocess_is_needed (initModel false) [[(5 : ℚ)]] = true ↔
        ncols [[(5 : ℚ)]] ≠ 0)) ∧
    (check_preprocess_is_needed (initModel false) [[(5 : ℚ)]] = true ∧
      preprocess_input_mat_if_needed (initModel false) [[(5 : ℚ)]] =
        preprocess_input_matrix [[(5 : ℚ)]]) :=
  ⟨⟨rfl, (needs_normalization_iff (initModel false) [[(5 : ℚ)]]).2.1 rfl⟩,
   ⟨rfl, (needs_normalization_iff (initModel false) [[(5 : ℚ)]]).2.2.1 rfl⟩⟩

theorem sum_squared_residuals_nonneg :
    ∀ yp yt : List ℚ, 0 ≤ sum_squared_residuals yp yt
  | _, [] => by simp [sum_squared_residuals]
  | [], _ :: _ => by simp [sum_squared_residuals]
  | q :: qs, t :: ts => by
    have ih := sum_squared_residuals_nonneg qs ts
    simp only [sum_squared_residuals, List.zipWith_cons_cons,
      List.sum_cons] at ih ⊢
    exact add_nonneg (by positivity) ih

theorem total_sum_squares_nonneg (y : List ℚ) : 0 ≤ total_sum_squares y := by
  apply List.sum_nonneg
  intro x hx
  obtain ⟨v, -, rfl⟩ := List.mem_map.mp hx
  positivity

theorem compute_r_squared_le_one (md : Model) (r2 : ℚ)
    (h : compute_r_squared md = .ok r2) : r2 ≤ 1 := by
  unfold compute_r_squared at h
  cases hx : md.x_ with
  | none => rw [hx] at h; simp at h
  | some xm =>
    rw [hx] at h
    cases hy : md.y_ with
    | none => rw [hy] at h; simp at h
    | some yv =>
      rw [hy] at h
      simp only [Except.map] at h
      cases hp : predict md xm with
      | error e => rw [hp] at h; simp at h
      | ok yp =>
        rw [hp] at h
        simp only [Except.ok.injEq] at h
        have h3 : 0 ≤ sum_squared_residuals yp yv / total_sum_squares yv :=
          div_nonneg (sum_squared_residuals_nonneg yp yv)
            (total_sum_squares_nonneg yv)
        linarith

/-- Counterexample to C6: for the fit of X = [[1],[2],[3],[4]],
y = [1,2,3,5] (num_predictors = 1 > 0, degrees_of_freedom = 2 > 0) the code
returns R² = 169/175 but adjusted R² = 172/175, and 172/175 ≤ 169/175 is
false: with the coded formula the adjusted value exceeds R². -/
theorem adjusted_r_squared_gt_r_squared :
    (fit (initModel false) !![(1 : ℚ); 2; 3; 4] ![1, 2, 3, 5]).err = none ∧
    (fit (initModel false) !![(1 : ℚ); 2; 3; 4]
      ![1, 2, 3, 5]).st.num_predictors = some 1 ∧
    (fit (initModel false) !![(1 : ℚ); 2; 3; 4]
      ![1, 2, 3, 5]).st.degrees_of_freedom = some 2 ∧
    compute_r_squared (fit (initModel false) !![(1 : ℚ); 2; 3; 4]
      ![1, 2, 3, 5]).st = .ok (169 / 175) ∧
    compute_adjusted_r_squared (fit (initModel false) !![(1 : ℚ); 2; 3; 4]
      ![1, 2, 3, 5]).st = .ok (172 / 175) ∧
    ¬ ((172 : ℚ) / 175 ≤ 169 / 175) := by
  have hfit : fit (initModel false) !![(1 : ℚ); 2; 3; 4] ![1, 2, 3, 5] =
      { err := none
        st := { name := "LinearRegression", compute_stats := false
                coef_ := some [13 / 10], intercept_ := some (-1 / 2)
                betas_ := some [-1 / 2, 13 / 10]
                degrees_of_freedom := some 2, num_predictors := some 1
                trained := true
                x_ := some [[1, 1], [1, 2], [1, 3], [1, 4]]
                y_ := some [1, 2, 3, 5] } } := by
    norm_num [fit, initModel, include_intercept_column, is_invertible_svd,
      myDet_two, myInv, myAdjugate_two, matToLists, Matrix.mul_apply,
      Matrix.mulVec, Matrix.dotProduct, Fin.sum_univ_succ,
      Matrix.transpose_apply, Matrix.smul_apply, Matrix.of_apply,
      List.ofFn_succ, Matrix.cons_val_zero, Matrix.cons_val_one,
      Matrix.cons_val_succ, Matrix.cons_val_two, Matrix.cons_val_three,
      Matrix.head_cons, Matrix.tail_cons, Matrix.vecHead, Matrix.vecTail,
      Function.comp_apply]
  rw [hfit]
  refine ⟨rfl, rfl, rfl, ?_, ?_, by norm_num⟩
  · norm_num [compute_r_squared, predict, preprocess_input_mat_if_needed,
      check_preprocess_is_needed, ncols, matVecList, dotList, listMean,
      total_sum_squares, sum_squared_residuals, Except.map, List.zipWith,
      List.map, List.sum_cons, List.sum_nil]
  · norm_num [compute_adjusted_r_squared, compute_r_squared, predict,
      preprocess_input_mat_if_needed, check_preprocess_is_needed, ncols,
      matVecList, dotList, listMean, total_sum_squares,
      sum_squared_residuals, Except.map, Except.bind, List.zipWith,
      List.map, List.sum_cons, List.sum_nil]

/-- C6 amended: with the code's formula
`adjusted = 1 - (1 - R²) * num_predictors / degrees_of_freedom`, the
round-trip inequality `adjusted_r_squared ≤ r_squared` holds whenever
`num_predictors ≥ degrees_of_freedom > 0`; for
`0 < num_predictors < degrees_of_freedom` and R² < 1 the inequality
reverses (see the counterexample), so the claim as stated fails. -/
theorem adjusted_r_squared_le_r_squared_of_many_predictors (md : Model)
    (k d : ℤ) (r2 a : ℚ)
    (hk : md.num_predictors = some k) (hd : md.degrees_of_freedom = some d)
    (hdpos : 0 < d) (hkd : d ≤ k)
    (hr : compute_r_squared md = .ok r2)
    (ha : compute_adjusted_r_squared md = .ok a) :
    a ≤ r2 := by
  have h1 : r2 ≤ 1 := compute_r_squared_le_one md r2 hr
  have ha' : a = 1 - (1 - r2) * (k : ℚ) / (d : ℚ) := by
    unfold compute_adjusted_r_squared at ha
    rw [hr] at ha
    simp only [Except.bind, hk, hd, Except.ok.injEq] at ha
    exact ha.symm
  have hd0 : (0 : ℚ) < (d : ℚ) := by exact_mod_cast hdpos
  have hkd2 : (d : ℚ) ≤ (k : ℚ) := by exact_mod_cast hkd
  have h2 : (1 : ℚ) ≤ (k : ℚ) / (d : ℚ) := (one_le_div hd0).mpr hkd2
  have h3 : (1 - r2) * 1 ≤ (1 - r2) * ((k : ℚ) / (d : ℚ)) :=
    mul_le_mul_of_nonneg_left h2 (by linarith)
  rw [ha', mul_div_assoc]
  linarith

/-- Witness for the amended C6: on `fittedExample` both R² and adjusted R²
are 27/28 (num_predictors = degrees_of_freedom = 1), and adjusted ≤ R². -/
theorem adjusted_r_squared_le_r_squared_witness :
    fittedExample.num_predictors = some 1 ∧
    fittedExample.degrees_of_freedom = some 1 ∧
    (0 : ℤ) < 1 ∧ (1 : ℤ) ≤ 1 ∧
    compute_r_squared fittedExample = .ok (27 / 28) ∧
    compute_adjusted_r_squared fittedExample = .ok (27 / 28) ∧
    (27 / 28 : ℚ) ≤ 27 / 28 := by
  have hr : compute_r_squared fittedExample = .ok (27 / 28) := by
    norm_num [fittedExample, compute_r_squared, predict,
      preprocess_input_mat_if_needed, check_preprocess_is_needed, ncols,
      matVecList, dotList, listMean, total_sum_squares,
      sum_squared_residuals, Except.map, List.zipWith, List.map,
      List.sum_cons, List.sum_nil]
  have ha : compute_adjusted_r_squared fittedExample = .ok (27 / 28) := by
    norm_num [fittedExample, compute_adjusted_r_squared, compute_r_squared,
      predict, preprocess_input_mat_if_needed, check_preprocess_is_needed,
      ncols, matVecList, dotList, listMean, total_sum_squares,
      sum_squared_residuals, Except.map, Except.bind, List.zipWith,
      List.map, List.sum_cons, List.sum_nil]
  exact ⟨rfl, rfl, by norm_num, by norm_num, hr, ha,
    adjusted_r_squared_le_r_squared_of_many_predictors fittedExample 1 1
      (27 / 28) (27 / 28) rfl rfl (by norm_num) (by norm_num) hr ha⟩

/-- C8: `get_residual_standard_error` returns the population standard
deviation — divisor n, not the degrees of freedom — of the residual vector
`y_true - predict(X_train)`, for every square-root primitive. -/
theorem residual_standard_error_is_population_std (sq : ℚ → ℚ) (md : Model)
    (rs : List ℚ) (h : get_residuals md = .ok rs) :
    get_residual_standard_error sq md = .ok (population_std sq rs) := by
  rw [get_residual_standard_error, h]
  simp [Except.map, numpy_std, population_std, listMean, List.length_map]

/-- Witness for C8 on `fittedExample`, whose residuals are
[1/6, −1/3, 1/6]. -/
theorem residual_standard_error_is_population_std_witness :
    get_residuals fittedExample = .ok [1 / 6, -1 / 3, 1 / 6] ∧
    get_residual_standard_error (fun q => q) fittedExample =
      .ok (population_std (fun q => q) [1 / 6, -1 / 3, 1 / 6]) := by
  have h : get_residuals fittedExample = .ok [1 / 6, -1 / 3, 1 / 6] := by
    norm_num [fittedExample, get_residuals, predict,
      preprocess_input_mat_if_needed, check_preprocess_is_needed, ncols,
      matVecList, dotList, Except.map, List.zipWith, List.map,
      List.sum_cons, List.sum_nil]
  exact ⟨h, residual_standard_error_is_population_std (fun q => q)
    fittedExample [1 / 6, -1 / 3, 1 / 6] h⟩

end MLCore
